import Mathlib

/-
Verification development for the `philips_airpurifier_coap` sensor platform
(`custom_components/philips_airpurifier_coap/sensor.py`).

The Python module is embedded shallowly:
- the device status mapping and the attribute dictionaries become association
  lists of string keys and scalar values, with Python dict semantics
  (first-match lookup, in-place update keeping insertion order);
- Python scalars become the inductive `PyValue`; float arithmetic is modelled
  exactly over `ℚ` (the rationals), with Python's `round(_, 2)` as exact
  half-to-even rounding at two decimals;
- fallible Python code (KeyError, ZeroDivisionError, TypeError,
  PlatformNotReady) becomes `Except`;
- properties reading the coordinator's live status become functions taking the
  status snapshot current at the time of the call.
-/

namespace PhilipsAirPurifier

/-- Python scalar values as they occur in the device status mapping and in
sensor states and attributes. `float` carries an exact rational; Python's
binary floating point is modelled by exact rational arithmetic. -/
inductive PyValue where
  | int (n : ℤ)
  | float (q : ℚ)
  | str (s : String)
  | bool (b : Bool)
  | none
deriving DecidableEq, Repr

/-- Python exceptions that the embedded sensor code can raise on a read. -/
inductive PyErr where
  | keyError (key : String)
  | zeroDivisionError
  | typeError
deriving DecidableEq, Repr

/-- The setup-time failure signal: `homeassistant.exceptions.PlatformNotReady`,
the only exception the embedded constructors raise. -/
inductive SetupErr where
  | platformNotReady
deriving DecidableEq, Repr

/-- A Python dict with string keys and scalar values, as an association list
in insertion order. Used both for the device status mapping and for the
`_attrs` attribute dictionaries. -/
abbrev StrDict := List (String × PyValue)

/-- Python `d.get(k)` / `d[k]` lookup: the value at the first matching key. -/
def dictGet : StrDict → String → Option PyValue
  | [], _ => Option.none
  | (k, v) :: rest, key => if k = key then some v else dictGet rest key

/-- Python `d[k] = v`: update the first matching key in place (keeping its
position) or append a fresh entry at the end, as CPython dicts do. -/
def dictSet : StrDict → String → PyValue → StrDict
  | [], key, v => [(key, v)]
  | (k, w) :: rest, key, v =>
    if k = key then (key, v) :: rest else (k, w) :: dictSet rest key v

/-- Python truthiness of an optional value, as used by
`if coordinator.status.get(sensor):` — `None` (absent key), `0`, `0.0`, `""`
and `False` are falsy. -/
def pyTruthy : Option PyValue → Bool
  | Option.none => false
  | some (PyValue.int n) => n != 0
  | some (PyValue.float q) => q != 0
  | some (PyValue.str s) => s != ""
  | some (PyValue.bool b) => b
  | some PyValue.none => false

/-- Python `str()` of a scalar, as used by f-string interpolation of the
device id. Python's shortest-round-trip decimal repr of a float is not
modelled (no verified property evaluates a float device id). -/
def pyStr : PyValue → String
  | PyValue.int n => toString n
  | PyValue.float q => toString q
  | PyValue.str s => s
  | PyValue.bool b => if b then "True" else "False"
  | PyValue.none => "None"

/-- Python `str.lower()` as applied to sensor identifiers. Lean's
`String.toLower` maps `Char.toLower` over the characters; it is defined here
directly on the character list so that it evaluates by kernel reduction
(the identifiers are ASCII, where Python and Lean agree). -/
def pyLower (s : String) : String := String.mk (s.data.map Char.toLower)

/-- Read a value as a Python int. The source annotates `_value` and `_total`
as `int`; Python's `bool` is an `int` subtype, so it is accepted too. Other
scalars are outside the annotated domain and yield `Option.none`, which the
callers turn into a TypeError. -/
def pyInt? : PyValue → Option ℤ
  | PyValue.int n => some n
  | PyValue.bool b => some (if b then 1 else 0)
  | _ => Option.none

/-- Round a rational to the nearest integer, ties to even — the rounding mode
of Python's builtin `round`. -/
def roundHalfEven (q : ℚ) : ℤ :=
  let f := ⌊q⌋
  let r := q - f
  if r < 1 / 2 then f
  else if 1 / 2 < r then f + 1
  else if f % 2 = 0 then f else f + 1

/-- Python `round(q, 2)`: half-to-even rounding at two decimal places,
over exact rationals. -/
def pyRound2 (q : ℚ) : ℚ :=
  (roundHalfEven (q * 100) : ℚ) / 100

/-- Python `str(datetime.timedelta(hours=h))` for an integer hour count:
days split off by floor division, `"D day(s), "` prefix when nonzero, hours
unpadded, minutes and seconds zero-padded (always `00` here). -/
def timedeltaStrHours (h : ℤ) : String :=
  let d := Int.fdiv h 24
  let hh := Int.emod h 24
  let core := toString hh ++ ":00:00"
  if d = 0 then core
  else toString d ++ " day" ++ (if d = 1 ∨ d = -1 then "" else "s") ++ ", " ++ core

/-- Modelled from the spec: the device-id status key constant
(`PHILIPS_DEVICE_ID`, from `const.py`, which is not under `src/`). The spec
only calls it "the device-id key"; the literal is immaterial to the verified
properties. -/
def PHILIPS_DEVICE_ID : String := "DeviceId"

/-- Modelled from the spec: the fixed middle literal of a filter's value key,
`value_key = prefix + "FilterStatus" + postfix` (`PHILIPS_FILTER_STATUS` in
`const.py`, not under `src/`). -/
def PHILIPS_FILTER_STATUS : String := "FilterStatus"

/-- Modelled from the spec: the fixed middle literal of a filter's total key,
`total_key = prefix + "FilterTotal" + postfix` (`PHILIPS_FILTER_TOTAL` in
`const.py`, not under `src/`). -/
def PHILIPS_FILTER_TOTAL : String := "FilterTotal"

/-- Modelled from the spec: the fixed middle literal of a filter's type key,
`type_key = prefix + "FilterType" + postfix` (`PHILIPS_FILTER_TYPE` in
`const.py`, not under `src/`). -/
def PHILIPS_FILTER_TYPE : String := "FilterType"

/-- Modelled from the spec: the attribute key for the raw value (`ATTR_RAW`
in `const.py`, not under `src/`; the spec calls it "a raw key"). -/
def ATTR_RAW : String := "raw"

/-- Modelled from the spec: the attribute key for the filter-type string
(`ATTR_TYPE` in `const.py`, not under `src/`). -/
def ATTR_TYPE : String := "type"

/-- Modelled from the spec: the attribute key for the numeric total
(`ATTR_TOTAL` in `const.py`, not under `src/`). -/
def ATTR_TOTAL : String := "total"

/-- Modelled from the spec: the attribute key for the duration-string form of
the value (`ATTR_TIME_REMAINING` in `const.py`, not under `src/`). -/
def ATTR_TIME_REMAINING : String := "time_remaining"

/-- Modelled from the spec: the host platform's percentage unit constant
(`homeassistant.const.PERCENTAGE`); the literal is immaterial to the verified
properties, which only test whether the unit was set. -/
def PERCENTAGE : String := "%"

/-- A sensor definition from `SENSOR_TYPES` (`const.py`, not under `src/`):
per the spec, label plus optional unit, device class, state class, icon and
value-conversion function `(raw_value, full_status_snapshot) → display_value`.
The display-name fields beyond `label` are carried but not read by any
verified property. -/
structure SensorDescription where
  label : String
  unit : Option String
  device_class : Option String
  state_class : Option String
  icon : Option String
  value : Option (PyValue → StrDict → PyValue)

/-- A filter definition from `FILTER_TYPES` (`const.py`, not under `src/`):
per the spec, a key prefix and postfix (fields `ATTR_PREFIX` / `ATTR_POSTFIX`
in the source). -/
structure FilterDescription where
  pre : String
  post : String
deriving DecidableEq, Repr

/-- The state of a constructed `PhilipsSensor` (the fields `__init__` sets
that the verified properties read; the display name is omitted). -/
structure PhilipsSensor where
  model : String
  kind : String
  description : SensorDescription
  unique_id : String

/-- `PhilipsSensor.__init__`: look up the device id in the status snapshot
current at construction time and derive
`f"{model}-{device_id}-{kind.lower()}"`; a missing device-id key (the only
failure in the `try` block) is logged and re-raised as `PlatformNotReady`. -/
def PhilipsSensor.make (st : StrDict) (name model kind : String)
    (desc : SensorDescription) : Except SetupErr PhilipsSensor :=
  match dictGet st PHILIPS_DEVICE_ID with
  | some did =>
    Except.ok ⟨model, kind, desc, model ++ "-" ++ pyStr did ++ "-" ++ pyLower kind⟩
  | Option.none => Except.error SetupErr.platformNotReady

/-- `PhilipsSensor.state`: read `self._device_status[self.kind]` from the live
snapshot (KeyError when absent) and apply the definition's conversion function
`convert(value, self._device_status)` when one is supplied. -/
def PhilipsSensor.state (s : PhilipsSensor) (st : StrDict) : Except PyErr PyValue :=
  match dictGet st s.kind with
  | Option.none => Except.error (PyErr.keyError s.kind)
  | some v =>
    match s.description.value with
    | some convert => Except.ok (convert v st)
    | Option.none => Except.ok v

/-- The state of a constructed `PhilipsFilterSensor` (the fields `__init__`
sets that the verified properties read; the display name is omitted). -/
structure PhilipsFilterSensor where
  model : String
  kind : String
  value_key : String
  total_key : String
  type_key : String
  unit_of_measurement : Option String
  unique_id : String
deriving DecidableEq, Repr

/-- `PhilipsFilterSensor.is_supported`: the derived value key
`prefix + PHILIPS_FILTER_STATUS + postfix` is present in the device status.
The source resolves `FILTER_TYPES[kind]` itself; here the resolved
description is passed in, as the setup loop only calls it on declared kinds. -/
def PhilipsFilterSensor.is_supported (device_status : StrDict)
    (description : FilterDescription) : Bool :=
  (dictGet device_status
    (description.pre ++ PHILIPS_FILTER_STATUS ++ description.post)).isSome

/-- `PhilipsFilterSensor.__init__`: derive the three keys by concatenation,
set the percentage unit exactly when the total key is present in the status
snapshot current at construction time, and derive
`f"{model}-{device_id}-{kind}"` (no lowercasing); a missing device-id key is
logged and re-raised as `PlatformNotReady`. -/
def PhilipsFilterSensor.make (st : StrDict) (name model kind : String)
    (desc : FilterDescription) : Except SetupErr PhilipsFilterSensor :=
  let value_key := desc.pre ++ PHILIPS_FILTER_STATUS ++ desc.post
  let total_key := desc.pre ++ PHILIPS_FILTER_TOTAL ++ desc.post
  let type_key := desc.pre ++ PHILIPS_FILTER_TYPE ++ desc.post
  let unit := if (dictGet st total_key).isSome then some PERCENTAGE else Option.none
  match dictGet st PHILIPS_DEVICE_ID with
  | some did =>
    Except.ok ⟨model, kind, value_key, total_key, type_key, unit,
      model ++ "-" ++ pyStr did ++ "-" ++ kind⟩
  | Option.none => Except.error SetupErr.platformNotReady

/-- `PhilipsFilterSensor._has_total`: the total key is in the live status. -/
def PhilipsFilterSensor.hasTotal (s : PhilipsFilterSensor) (st : StrDict) : Bool :=
  (dictGet st s.total_key).isSome

/-- `PhilipsFilterSensor._time_remaining`:
`str(timedelta(hours=self._value))`, with `self._value` read from the live
snapshot (KeyError when absent, TypeError outside the annotated int domain). -/
def PhilipsFilterSensor.timeRemaining (s : PhilipsFilterSensor) (st : StrDict) :
    Except PyErr String :=
  match dictGet st s.value_key with
  | Option.none => Except.error (PyErr.keyError s.value_key)
  | some v =>
    match pyInt? v with
    | Option.none => Except.error PyErr.typeError
    | some n => Except.ok (timedeltaStrHours n)

/-- `PhilipsFilterSensor._percentage`:
`round(100.0 * self._value / self._total, 2)` with both operands read from
the live snapshot, in Python evaluation order (value lookup, multiplication,
total lookup, division — ZeroDivisionError on a zero total, unguarded). -/
def PhilipsFilterSensor.percentage (s : PhilipsFilterSensor) (st : StrDict) :
    Except PyErr ℚ :=
  match dictGet st s.value_key with
  | Option.none => Except.error (PyErr.keyError s.value_key)
  | some v =>
    match pyInt? v with
    | Option.none => Except.error PyErr.typeError
    | some vn =>
      match dictGet st s.total_key with
      | Option.none => Except.error (PyErr.keyError s.total_key)
      | some t =>
        match pyInt? t with
        | Option.none => Except.error PyErr.typeError
        | some tn =>
          if tn = 0 then Except.error PyErr.zeroDivisionError
          else Except.ok (pyRound2 (100 * (vn : ℚ) / (tn : ℚ)))

/-- `PhilipsFilterSensor.state`: the percentage when `_has_total` holds on the
live snapshot, else the time-remaining duration string. -/
def PhilipsFilterSensor.state (s : PhilipsFilterSensor) (st : StrDict) :
    Except PyErr PyValue :=
  if s.hasTotal st then (s.percentage st).map PyValue.float
  else (s.timeRemaining st).map PyValue.str

/-- `PhilipsFilterSensor.extra_state_attributes`: update the persistent
`self._attrs` dict in place — the filter type when its key is currently
present, always the raw value (KeyError when the value key is absent), and
the total plus the duration string when `_has_total` holds — and return the
updated dict. Entries from earlier reads are never removed. -/
def PhilipsFilterSensor.extraStateAttributes (s : PhilipsFilterSensor)
    (st : StrDict) (attrs : StrDict) : Except PyErr StrDict :=
  let a1 :=
    match dictGet st s.type_key with
    | some tv => dictSet attrs ATTR_TYPE tv
    | Option.none => attrs
  match dictGet st s.value_key with
  | Option.none => Except.error (PyErr.keyError s.value_key)
  | some v =>
    let a2 := dictSet a1 ATTR_RAW v
    match dictGet st s.total_key with
    | some t =>
      let a3 := dictSet a2 ATTR_TOTAL t
      match s.timeRemaining st with
      | Except.error e => Except.error e
      | Except.ok tr => Except.ok (dictSet a3 ATTR_TIME_REMAINING (PyValue.str tr))
    | Option.none => Except.ok a2

/-- A constructed entity, as accumulated by `async_setup_platform`. -/
inductive Entity where
  | simple (s : PhilipsSensor)
  | filterS (s : PhilipsFilterSensor)

/-- The first loop of `async_setup_platform`: for each declared sensor kind,
construct a `PhilipsSensor` when `coordinator.status.get(sensor)` is truthy;
a construction failure propagates out of the whole setup. -/
def buildSimpleSensors (st : StrDict) (name model : String) :
    List (String × SensorDescription) → Except SetupErr (List Entity)
  | [] => Except.ok []
  | (kind, desc) :: rest =>
    if pyTruthy (dictGet st kind) then
      match PhilipsSensor.make st name model kind desc with
      | Except.error e => Except.error e
      | Except.ok s =>
        match buildSimpleSensors st name model rest with
        | Except.error e => Except.error e
        | Except.ok es => Except.ok (Entity.simple s :: es)
    else buildSimpleSensors st name model rest

/-- The second loop of `async_setup_platform`: for each declared filter kind,
construct a `PhilipsFilterSensor` when `is_supported` holds on the current
status; a construction failure propagates out of the whole setup. -/
def buildFilterSensors (st : StrDict) (name model : String) :
    List (String × FilterDescription) → Except SetupErr (List Entity)
  | [] => Except.ok []
  | (kind, desc) :: rest =>
    if PhilipsFilterSensor.is_supported st desc then
      match PhilipsFilterSensor.make st name model kind desc with
      | Except.error e => Except.error e
      | Except.ok s =>
        match buildFilterSensors st name model rest with
        | Except.error e => Except.error e
        | Except.ok es => Except.ok (Entity.filterS s :: es)
    else buildFilterSensors st name model rest

/-- `async_setup_platform` after discovery data is unpacked: run both loops
over the declared `SENSOR_TYPES` and `FILTER_TYPES` entries against the
current status snapshot and collect the entity list handed to
`async_add_entities`. -/
def async_setup_platform (st : StrDict) (name model : String)
    (sensorTypes : List (String × SensorDescription))
    (filterTypes : List (String × FilterDescription)) :
    Except SetupErr (List Entity) :=
  match buildSimpleSensors st name model sensorTypes with
  | Except.error e => Except.error e
  | Except.ok simples =>
    match buildFilterSensors st name model filterTypes with
    | Except.error e => Except.error e
    | Except.ok filters => Except.ok (simples ++ filters)

/-- Whether the entity list contains a simple sensor for the given kind. -/
def constructsSimpleFor (es : List Entity) (kind : String) : Bool :=
  es.any fun e =>
    match e with
    | Entity.simple s => s.kind == kind
    | Entity.filterS _ => false

/-- Whether the entity list contains a filter sensor for the given kind. -/
def constructsFilterFor (es : List Entity) (kind : String) : Bool :=
  es.any fun e =>
    match e with
    | Entity.simple _ => false
    | Entity.filterS s => s.kind == kind


/-! ### Dictionary lemmas -/

theorem dictGet_dictSet_same (d : StrDict) (k : String) (v : PyValue) :
    dictGet (dictSet d k v) k = some v := by
  induction d with
  | nil => simp [dictSet, dictGet]
  | cons hd tl ih =>
    obtain ⟨k1, w⟩ := hd
    by_cases hk : k1 = k <;> simp [dictSet, dictGet, hk, ih]

theorem dictGet_dictSet_other (d : StrDict) (k : String) (v : PyValue)
    (k2 : String) (h : k2 ≠ k) : dictGet (dictSet d k v) k2 = dictGet d k2 := by
  have h2 : k ≠ k2 := Ne.symm h
  induction d with
  | nil => simp [dictSet, dictGet, h2]
  | cons hd tl ih =>
    obtain ⟨k1, w⟩ := hd
    by_cases hk : k1 = k
    · subst hk
      simp [dictSet, dictGet, h2]
    · simp [dictSet, dictGet, hk, ih]

/-! ### Constructor inversion lemmas -/

theorem sensor_make_ok {st : StrDict} {n m kind : String}
    {desc : SensorDescription} {s : PhilipsSensor}
    (h : PhilipsSensor.make st n m kind desc = Except.ok s) :
    s.model = m ∧ s.kind = kind ∧ s.description = desc := by
  cases hd : dictGet st PHILIPS_DEVICE_ID with
  | none => simp [PhilipsSensor.make, hd] at h
  | some did =>
    simp only [PhilipsSensor.make, hd, Except.ok.injEq] at h
    subst h
    exact ⟨rfl, rfl, rfl⟩

theorem sensor_make_unique_id {st : StrDict} {n m kind : String}
    {desc : SensorDescription} {s : PhilipsSensor} {did : PyValue}
    (hd : dictGet st PHILIPS_DEVICE_ID = some did)
    (h : PhilipsSensor.make st n m kind desc = Except.ok s) :
    s.unique_id = m ++ "-" ++ pyStr did ++ "-" ++ pyLower kind := by
  simp only [PhilipsSensor.make, hd, Except.ok.injEq] at h
  subst h
  rfl

theorem filter_make_ok {st : StrDict} {n m kind : String}
    {desc : FilterDescription} {s : PhilipsFilterSensor}
    (h : PhilipsFilterSensor.make st n m kind desc = Except.ok s) :
    s.model = m ∧ s.kind = kind ∧
    s.value_key = desc.pre ++ PHILIPS_FILTER_STATUS ++ desc.post ∧
    s.total_key = desc.pre ++ PHILIPS_FILTER_TOTAL ++ desc.post ∧
    s.type_key = desc.pre ++ PHILIPS_FILTER_TYPE ++ desc.post ∧
    s.unit_of_measurement =
      (if (dictGet st (desc.pre ++ PHILIPS_FILTER_TOTAL ++ desc.post)).isSome
        then some PERCENTAGE else Option.none) := by
  cases hd : dictGet st PHILIPS_DEVICE_ID with
  | none => simp [PhilipsFilterSensor.make, hd] at h
  | some did =>
    simp only [PhilipsFilterSensor.make, hd, Except.ok.injEq] at h
    subst h
    exact ⟨rfl, rfl, rfl, rfl, rfl, rfl⟩

theorem filter_make_unique_id {st : StrDict} {n m kind : String}
    {desc : FilterDescription} {s : PhilipsFilterSensor} {did : PyValue}
    (hd : dictGet st PHILIPS_DEVICE_ID = some did)
    (h : PhilipsFilterSensor.make st n m kind desc = Except.ok s) :
    s.unique_id = m ++ "-" ++ pyStr did ++ "-" ++ kind := by
  simp only [PhilipsFilterSensor.make, hd, Except.ok.injEq] at h
  subst h
  rfl

/-! ### Filter state lemmas -/

theorem filter_state_total_present {s : PhilipsFilterSensor} {st : StrDict}
    {v t : ℤ} (hv : dictGet st s.value_key = some (PyValue.int v))
    (ht : dictGet st s.total_key = some (PyValue.int t)) (hnz : t ≠ 0) :
    s.state st = Except.ok (PyValue.float (pyRound2 (100 * (v : ℚ) / (t : ℚ)))) := by
  simp [PhilipsFilterSensor.state, PhilipsFilterSensor.hasTotal,
    PhilipsFilterSensor.percentage, hv, ht, pyInt?, hnz, Except.map]

theorem filter_state_total_absent {s : PhilipsFilterSensor} {st : StrDict}
    {v : ℤ} (ht : dictGet st s.total_key = Option.none)
    (hv : dictGet st s.value_key = some (PyValue.int v)) :
    s.state st = Except.ok (PyValue.str (timedeltaStrHours v)) := by
  simp [PhilipsFilterSensor.state, PhilipsFilterSensor.hasTotal,
    PhilipsFilterSensor.timeRemaining, hv, ht, pyInt?, Except.map]

/-! ### Setup-loop shape lemmas -/

theorem buildSimple_shape {st : StrDict} {n m : String} :
    ∀ {l : List (String × SensorDescription)} {es : List Entity},
    buildSimpleSensors st n m l = Except.ok es →
    ∃ ss : List PhilipsSensor, es = ss.map Entity.simple ∧
      ss.map PhilipsSensor.kind =
        ((l.filter fun p => pyTruthy (dictGet st p.1)).map Prod.fst) := by
  intro l
  induction l with
  | nil =>
    intro es h
    simp only [buildSimpleSensors, Except.ok.injEq] at h
    subst h
    exact ⟨[], rfl, by simp⟩
  | cons hd tl ih =>
    obtain ⟨k, d⟩ := hd
    intro es h
    simp only [buildSimpleSensors] at h
    by_cases htr : pyTruthy (dictGet st k)
    · rw [if_pos htr] at h
      cases hm : PhilipsSensor.make st n m k d with
      | error e => rw [hm] at h; exact absurd h (by simp)
      | ok s =>
        rw [hm] at h
        cases hr : buildSimpleSensors st n m tl with
        | error e => rw [hr] at h; exact absurd h (by simp)
        | ok es1 =>
          rw [hr] at h
          simp only [Except.ok.injEq] at h
          subst h
          obtain ⟨ss, hes, hkinds⟩ := ih hr
          subst hes
          exact ⟨s :: ss, rfl,
            by simp [List.filter_cons_of_pos, htr, hkinds, (sensor_make_ok hm).2.1]⟩
    · rw [if_neg htr] at h
      obtain ⟨ss, hes, hkinds⟩ := ih h
      exact ⟨ss, hes, by simp [List.filter_cons_of_neg, htr, hkinds]⟩

theorem buildFilter_shape {st : StrDict} {n m : String} :
    ∀ {l : List (String × FilterDescription)} {es : List Entity},
    buildFilterSensors st n m l = Except.ok es →
    ∃ ss : List PhilipsFilterSensor, es = ss.map Entity.filterS ∧
      ss.map PhilipsFilterSensor.kind =
        ((l.filter fun p => PhilipsFilterSensor.is_supported st p.2).map Prod.fst) := by
  intro l
  induction l with
  | nil =>
    intro es h
    simp only [buildFilterSensors, Except.ok.injEq] at h
    subst h
    exact ⟨[], rfl, by simp⟩
  | cons hd tl ih =>
    obtain ⟨k, d⟩ := hd
    intro es h
    simp only [buildFilterSensors] at h
    by_cases htr : PhilipsFilterSensor.is_supported st d
    · rw [if_pos htr] at h
      cases hm : PhilipsFilterSensor.make st n m k d with
      | error e => rw [hm] at h; exact absurd h (by simp)
      | ok s =>
        rw [hm] at h
        cases hr : buildFilterSensors st n m tl with
        | error e => rw [hr] at h; exact absurd h (by simp)
        | ok es1 =>
          rw [hr] at h
          simp only [Except.ok.injEq] at h
          subst h
          obtain ⟨ss, hes, hkinds⟩ := ih hr
          subst hes
          exact ⟨s :: ss, rfl,
            by simp [List.filter_cons_of_pos, htr, hkinds, (filter_make_ok hm).2.1]⟩
    · rw [if_neg htr] at h
      obtain ⟨ss, hes, hkinds⟩ := ih h
      exact ⟨ss, hes, by simp [List.filter_cons_of_neg, htr, hkinds]⟩

theorem constructsSimpleFor_append (a b : List Entity) (kind : String) :
    constructsSimpleFor (a ++ b) kind =
      (constructsSimpleFor a kind || constructsSimpleFor b kind) := by
  simp [constructsSimpleFor, List.any_append]

theorem constructsFilterFor_append (a b : List Entity) (kind : String) :
    constructsFilterFor (a ++ b) kind =
      (constructsFilterFor a kind || constructsFilterFor b kind) := by
  simp [constructsFilterFor, List.any_append]

theorem constructsSimpleFor_map_filterS (ss : List PhilipsFilterSensor) (kind : String) :
    constructsSimpleFor (ss.map Entity.filterS) kind = false := by
  induction ss with
  | nil => rfl
  | cons s tl ih => simpa [constructsSimpleFor] using ih

theorem constructsFilterFor_map_simple (ss : List PhilipsSensor) (kind : String) :
    constructsFilterFor (ss.map Entity.simple) kind = false := by
  induction ss with
  | nil => rfl
  | cons s tl ih => simpa [constructsFilterFor] using ih

theorem constructsSimpleFor_map_simple (ss : List PhilipsSensor) (kind : String) :
    constructsSimpleFor (ss.map Entity.simple) kind =
      ss.any (fun s => s.kind == kind) := by
  induction ss with
  | nil => rfl
  | cons s tl ih =>
    simp only [List.map_cons, constructsSimpleFor, List.any_cons] at ih ⊢
    rw [ih]

theorem constructsFilterFor_map_filterS (ss : List PhilipsFilterSensor) (kind : String) :
    constructsFilterFor (ss.map Entity.filterS) kind =
      ss.any (fun s => s.kind == kind) := by
  induction ss with
  | nil => rfl
  | cons s tl ih =>
    simp only [List.map_cons, constructsFilterFor, List.any_cons] at ih ⊢
    rw [ih]
/-! ### Claim theorems: setup / discovery -/

/-- C3 (amended): platform setup constructs a Simple Sensor for a declared
sensor identifier exactly when the current status snapshot maps that
identifier to a truthy value (the source tests
`coordinator.status.get(sensor)` for truthiness, not for key presence); an
identifier present with a falsy value is skipped like an absent one. -/
theorem setup_simple_iff_truthy (st : StrDict) (n m : String)
    (sT : List (String × SensorDescription)) (fT : List (String × FilterDescription))
    (es : List Entity) (kind : String)
    (h : async_setup_platform st n m sT fT = Except.ok es) :
    (constructsSimpleFor es kind = true ↔
      (∃ d, (kind, d) ∈ sT) ∧ pyTruthy (dictGet st kind) = true) := by
  unfold async_setup_platform at h
  cases h1 : buildSimpleSensors st n m sT with
  | error e => rw [h1] at h; exact absurd h (by simp)
  | ok es1 =>
    rw [h1] at h
    cases h2 : buildFilterSensors st n m fT with
    | error e => rw [h2] at h; exact absurd h (by simp)
    | ok es2 =>
      rw [h2] at h
      simp only [Except.ok.injEq] at h
      subst h
      obtain ⟨ss, rfl, hk⟩ := buildSimple_shape h1
      obtain ⟨fs, rfl, hk2⟩ := buildFilter_shape h2
      rw [constructsSimpleFor_append, constructsSimpleFor_map_simple,
        constructsSimpleFor_map_filterS, Bool.or_false]
      constructor
      · intro ha
        obtain ⟨s, hs, hbeq⟩ := List.any_eq_true.mp ha
        have hk3 : s.kind = kind := by simpa using hbeq
        have hmm : kind ∈ (sT.filter fun p => pyTruthy (dictGet st p.1)).map Prod.fst := by
          rw [← hk]
          exact hk3 ▸ List.mem_map_of_mem PhilipsSensor.kind hs
        obtain ⟨⟨k1, d1⟩, hmem, hfst⟩ := List.mem_map.mp hmm
        obtain ⟨hin, htr⟩ := List.mem_filter.mp hmem
        cases hfst
        exact ⟨⟨d1, hin⟩, by simpa using htr⟩
      · rintro ⟨⟨d1, hd1⟩, htr⟩
        have hmm : kind ∈ (sT.filter fun p => pyTruthy (dictGet st p.1)).map Prod.fst :=
          List.mem_map.mpr ⟨(kind, d1), List.mem_filter.mpr ⟨hd1, by simpa using htr⟩, rfl⟩
        rw [← hk] at hmm
        obtain ⟨s, hs, hk3⟩ := List.mem_map.mp hmm
        exact List.any_eq_true.mpr ⟨s, hs, by simpa using hk3⟩

/-- C4: platform setup constructs a Filter Sensor for a declared filter-type
identifier if and only if the derived value key (prefix + "FilterStatus"
literal + postfix) is present as a key in the current status snapshot; and
this presence test is exactly the `is_supported` predicate. -/
theorem setup_filter_iff_value_key (st : StrDict) (n m : String)
    (sT : List (String × SensorDescription)) (fT : List (String × FilterDescription))
    (es : List Entity) (kind : String)
    (h : async_setup_platform st n m sT fT = Except.ok es) :
    (constructsFilterFor es kind = true ↔
      ∃ d, (kind, d) ∈ fT ∧ PhilipsFilterSensor.is_supported st d = true) ∧
    (∀ d : FilterDescription, PhilipsFilterSensor.is_supported st d =
      (dictGet st (d.pre ++ PHILIPS_FILTER_STATUS ++ d.post)).isSome) := by
  refine ⟨?_, fun d => rfl⟩
  unfold async_setup_platform at h
  cases h1 : buildSimpleSensors st n m sT with
  | error e => rw [h1] at h; exact absurd h (by simp)
  | ok es1 =>
    rw [h1] at h
    cases h2 : buildFilterSensors st n m fT with
    | error e => rw [h2] at h; exact absurd h (by simp)
    | ok es2 =>
      rw [h2] at h
      simp only [Except.ok.injEq] at h
      subst h
      obtain ⟨ss, rfl, hk⟩ := buildSimple_shape h1
      obtain ⟨fs, rfl, hk2⟩ := buildFilter_shape h2
      rw [constructsFilterFor_append, constructsFilterFor_map_simple,
        constructsFilterFor_map_filterS, Bool.false_or]
      constructor
      · intro ha
        obtain ⟨s, hs, hbeq⟩ := List.any_eq_true.mp ha
        have hk3 : s.kind = kind := by simpa using hbeq
        have hmm : kind ∈
            (fT.filter fun p => PhilipsFilterSensor.is_supported st p.2).map Prod.fst := by
          rw [← hk2]
          exact hk3 ▸ List.mem_map_of_mem PhilipsFilterSensor.kind hs
        obtain ⟨⟨k1, d1⟩, hmem, hfst⟩ := List.mem_map.mp hmm
        obtain ⟨hin, hsup⟩ := List.mem_filter.mp hmem
        cases hfst
        exact ⟨d1, hin, by simpa using hsup⟩
      · rintro ⟨d1, hd1, hsup⟩
        have hmm : kind ∈
            (fT.filter fun p => PhilipsFilterSensor.is_supported st p.2).map Prod.fst :=
          List.mem_map.mpr ⟨(kind, d1), List.mem_filter.mpr ⟨hd1, by simpa using hsup⟩, rfl⟩
        rw [← hk2] at hmm
        obtain ⟨s, hs, hk3⟩ := List.mem_map.mp hmm
        exact List.any_eq_true.mpr ⟨s, hs, by simpa using hk3⟩
/-! ### Claim theorems: sensor construction and reads -/

/-- C1 (amended): for a constructed Filter Sensor, whenever the total key is
present in the live snapshot at the time of the read (the branch is
re-evaluated on every read, not latched at construction) with integer value
and nonzero integer total, reading `state` returns
`round(100.0 * value / total, 2)` computed from the live snapshot — so a
changed value entry is reflected immediately on re-read. -/
theorem filter_state_percentage_live (st0 st1 : StrDict) (n m kind : String)
    (desc : FilterDescription) (s : PhilipsFilterSensor) (v t : ℤ)
    (h : PhilipsFilterSensor.make st0 n m kind desc = Except.ok s)
    (hv : dictGet st1 s.value_key = some (PyValue.int v))
    (ht : dictGet st1 s.total_key = some (PyValue.int t))
    (hnz : t ≠ 0) :
    s.state st1 = Except.ok (PyValue.float (pyRound2 (100 * (v : ℚ) / (t : ℚ)))) :=
  filter_state_total_present hv ht hnz

/-- C2: with the total entry equal to zero, reading the Filter Sensor state
evaluates `100.0 * value / total` unguarded and raises ZeroDivisionError —
there is no explicit invalid-denominator error in the source. -/
theorem filter_state_zero_total_zero_division :
    (PhilipsFilterSensor.make
        [(PHILIPS_DEVICE_ID, PyValue.str "XYZ"),
         ("F0FilterStatus", PyValue.int 10), ("F0FilterTotal", PyValue.int 0)]
        "devname" "AC1234" "active_filter" ⟨"F0", ""⟩).map
      (fun s => s.state
        [(PHILIPS_DEVICE_ID, PyValue.str "XYZ"),
         ("F0FilterStatus", PyValue.int 10), ("F0FilterTotal", PyValue.int 0)]) =
    Except.ok (Except.error PyErr.zeroDivisionError) := by
  rfl

/-- C5: when the device-id key is absent from the status snapshot, both the
Simple Sensor and the Filter Sensor constructors fail with exactly the
not-ready signal (`PlatformNotReady`, the only constructor of `SetupErr`),
never with any other unhandled exception. -/
theorem make_missing_device_id_not_ready (st : StrDict) (n m kind fkind : String)
    (desc : SensorDescription) (fdesc : FilterDescription)
    (h : dictGet st PHILIPS_DEVICE_ID = Option.none) :
    PhilipsSensor.make st n m kind desc = Except.error SetupErr.platformNotReady ∧
    PhilipsFilterSensor.make st n m fkind fdesc = Except.error SetupErr.platformNotReady := by
  constructor
  · simp [PhilipsSensor.make, h]
  · simp [PhilipsFilterSensor.make, h]

/-- C7: for a constructed Filter Sensor whose total key is absent from the
live snapshot, reading `state` returns the canonical duration-text form of
the value interpreted as a count of hours
(`str(timedelta(hours=value))`, e.g. 48 gives "2 days, 0:00:00"). -/
theorem filter_state_duration (st0 st1 : StrDict) (n m kind : String)
    (desc : FilterDescription) (s : PhilipsFilterSensor) (v : ℤ)
    (h : PhilipsFilterSensor.make st0 n m kind desc = Except.ok s)
    (ht : dictGet st1 s.total_key = Option.none)
    (hv : dictGet st1 s.value_key = some (PyValue.int v)) :
    s.state st1 = Except.ok (PyValue.str (timedeltaStrHours v)) :=
  filter_state_total_absent ht hv

/-- C8: a Simple Sensor read fetches the raw value for its identifier from
the live snapshot on each read and returns the conversion function applied to
`(raw_value, full_snapshot)` when the definition supplies one, else the raw
value unmodified. -/
theorem sensor_state_conversion (st0 st : StrDict) (n m kind : String)
    (desc : SensorDescription) (s : PhilipsSensor) (v : PyValue)
    (h : PhilipsSensor.make st0 n m kind desc = Except.ok s)
    (hv : dictGet st s.kind = some v) :
    s.state st = Except.ok (match desc.value with
      | some convert => convert v st
      | Option.none => v) := by
  obtain ⟨-, -, hdesc⟩ := sensor_make_ok h
  cases hc : desc.value <;>
    simp [PhilipsSensor.state, hv, hdesc, hc]

/-- C9: a successfully constructed Simple Sensor has unique identifier
`{model}-{device_id}-{sensor_identifier_lowercased}` and a successfully
constructed Filter Sensor has `{model}-{device_id}-{filter_type_identifier}`
without lowercasing, with the device id read from the snapshot. -/
theorem unique_id_derivation (st : StrDict) (n model skind fkind : String)
    (sdesc : SensorDescription) (fdesc : FilterDescription)
    (s1 : PhilipsSensor) (s2 : PhilipsFilterSensor) (did : PyValue)
    (hd : dictGet st PHILIPS_DEVICE_ID = some did)
    (h1 : PhilipsSensor.make st n model skind sdesc = Except.ok s1)
    (h2 : PhilipsFilterSensor.make st n model fkind fdesc = Except.ok s2) :
    s1.unique_id = model ++ "-" ++ pyStr did ++ "-" ++ pyLower skind ∧
    s2.unique_id = model ++ "-" ++ pyStr did ++ "-" ++ fkind :=
  ⟨sensor_make_unique_id hd h1, filter_make_unique_id hd h2⟩

/-- C10: the percentage/duration branch of a Filter Sensor `state` read is
decided by total-key membership in the live snapshot at each read, while the
unit of measurement is fixed at construction time from the construction
snapshot — so the state meaning can switch while the unit stays as set. -/
theorem filter_branch_live_unit_latched (st0 st1 : StrDict) (n m kind : String)
    (desc : FilterDescription) (s : PhilipsFilterSensor)
    (h : PhilipsFilterSensor.make st0 n m kind desc = Except.ok s) :
    s.unit_of_measurement =
      (if (dictGet st0 s.total_key).isSome then some PERCENTAGE else Option.none) ∧
    (∀ v : ℤ, dictGet st1 s.total_key = Option.none →
      dictGet st1 s.value_key = some (PyValue.int v) →
      s.state st1 = Except.ok (PyValue.str (timedeltaStrHours v))) ∧
    (∀ v t : ℤ, dictGet st1 s.total_key = some (PyValue.int t) →
      dictGet st1 s.value_key = some (PyValue.int v) → t ≠ 0 →
      s.state st1 = Except.ok (PyValue.float (pyRound2 (100 * (v : ℚ) / (t : ℚ))))) := by
  obtain ⟨-, -, -, htk, -, hunit⟩ := filter_make_ok h
  refine ⟨?_, fun v ht hv => filter_state_total_absent ht hv,
    fun v t ht hv hnz => filter_state_total_present hv ht hnz⟩
  rw [hunit, htk]

/-! ### Claim theorem: filter extra attributes -/

/-- C6 (amended): a Filter Sensor attributes read updates the persistent
`_attrs` dict in place: it always refreshes the raw value under "raw", sets
"type" when the type key is currently present, and sets "total" and
"time_remaining" when the percentage branch is active; but entries written by
earlier reads are never removed, so when a condition no longer holds the
stale "type" / "total" / "time_remaining" entries from an earlier read
persist in the result (the dict is not rebuilt from scratch per read). -/
theorem filter_attrs_update (s : PhilipsFilterSensor) (st attrs a : StrDict)
    (h : s.extraStateAttributes st attrs = Except.ok a) :
    (∃ v, dictGet st s.value_key = some v ∧ dictGet a ATTR_RAW = some v) ∧
    (∀ tv, dictGet st s.type_key = some tv → dictGet a ATTR_TYPE = some tv) ∧
    (dictGet st s.type_key = Option.none →
      dictGet a ATTR_TYPE = dictGet attrs ATTR_TYPE) ∧
    (∀ t v, dictGet st s.total_key = some t →
      dictGet st s.value_key = some (PyValue.int v) →
      dictGet a ATTR_TOTAL = some t ∧
      dictGet a ATTR_TIME_REMAINING = some (PyValue.str (timedeltaStrHours v))) ∧
    (dictGet st s.total_key = Option.none →
      dictGet a ATTR_TOTAL = dictGet attrs ATTR_TOTAL ∧
      dictGet a ATTR_TIME_REMAINING = dictGet attrs ATTR_TIME_REMAINING) := by
  cases hv : dictGet st s.value_key with
  | none => simp [PhilipsFilterSensor.extraStateAttributes, hv] at h
  | some v0 =>
    cases hty : dictGet st s.type_key with
    | none =>
      cases htot : dictGet st s.total_key with
      | none =>
        simp only [PhilipsFilterSensor.extraStateAttributes, hv, hty, htot,
          Except.ok.injEq] at h
        subst h
        refine ⟨⟨v0, rfl, ?_⟩, ?_, ?_, ?_, ?_⟩
        · simp [dictGet_dictSet_same]
        · intro tv htv
          exact Option.noConfusion htv
        · intro htyn
          simp [dictGet_dictSet_other, ATTR_RAW, ATTR_TYPE]
        · intro t v htot2 hv2
          exact Option.noConfusion htot2
        · intro htotn
          constructor <;>
            simp [dictGet_dictSet_other, ATTR_RAW, ATTR_TOTAL, ATTR_TIME_REMAINING]
      | some t0 =>
        cases hpi : pyInt? v0 with
        | none =>
          simp [PhilipsFilterSensor.extraStateAttributes,
            PhilipsFilterSensor.timeRemaining, hv, hty, htot, hpi] at h
        | some n0 =>
          simp only [PhilipsFilterSensor.extraStateAttributes,
            PhilipsFilterSensor.timeRemaining, hv, hty, htot, hpi,
            Except.ok.injEq] at h
          subst h
          refine ⟨⟨v0, rfl, ?_⟩, ?_, ?_, ?_, ?_⟩
          · simp [dictGet_dictSet_same, dictGet_dictSet_other,
              ATTR_RAW, ATTR_TOTAL, ATTR_TIME_REMAINING]
          · intro tv htv
            exact Option.noConfusion htv
          · intro htyn
            simp [dictGet_dictSet_other,
              ATTR_RAW, ATTR_TYPE, ATTR_TOTAL, ATTR_TIME_REMAINING]
          · intro t v htot2 hv2
            injection htot2 with ht0
            subst ht0
            injection hv2 with hv0
            subst hv0
            simp only [pyInt?, Option.some.injEq] at hpi
            subst hpi
            constructor
            · simp [dictGet_dictSet_same, dictGet_dictSet_other,
                ATTR_TOTAL, ATTR_TIME_REMAINING]
            · simp [dictGet_dictSet_same]
          · intro htotn
            exact Option.noConfusion htotn
    | some tv0 =>
      cases htot : dictGet st s.total_key with
      | none =>
        simp only [PhilipsFilterSensor.extraStateAttributes, hv, hty, htot,
          Except.ok.injEq] at h
        subst h
        refine ⟨⟨v0, rfl, ?_⟩, ?_, ?_, ?_, ?_⟩
        · simp [dictGet_dictSet_same]
        · intro tv htv
          injection htv with htv0
          subst htv0
          simp [dictGet_dictSet_same, dictGet_dictSet_other, ATTR_RAW, ATTR_TYPE]
        · intro htyn
          exact Option.noConfusion htyn
        · intro t v htot2 hv2
          exact Option.noConfusion htot2
        · intro htotn
          constructor <;>
            simp [dictGet_dictSet_other,
              ATTR_RAW, ATTR_TYPE, ATTR_TOTAL, ATTR_TIME_REMAINING]
      | some t0 =>
        cases hpi : pyInt? v0 with
        | none =>
          simp [PhilipsFilterSensor.extraStateAttributes,
            PhilipsFilterSensor.timeRemaining, hv, hty, htot, hpi] at h
        | some n0 =>
          simp only [PhilipsFilterSensor.extraStateAttributes,
            PhilipsFilterSensor.timeRemaining, hv, hty, htot, hpi,
            Except.ok.injEq] at h
          subst h
          refine ⟨⟨v0, rfl, ?_⟩, ?_, ?_, ?_, ?_⟩
          · simp [dictGet_dictSet_same, dictGet_dictSet_other,
              ATTR_RAW, ATTR_TOTAL, ATTR_TIME_REMAINING]
          · intro tv htv
            injection htv with htv0
            subst htv0
            simp [dictGet_dictSet_same, dictGet_dictSet_other,
              ATTR_RAW, ATTR_TYPE, ATTR_TOTAL, ATTR_TIME_REMAINING]
          · intro htyn
            exact Option.noConfusion htyn
          · intro t v htot2 hv2
            injection htot2 with ht0
            subst ht0
            injection hv2 with hv0
            subst hv0
            simp only [pyInt?, Option.some.injEq] at hpi
            subst hpi
            constructor
            · simp [dictGet_dictSet_same, dictGet_dictSet_other,
                ATTR_TOTAL, ATTR_TIME_REMAINING]
            · simp [dictGet_dictSet_same]
          · intro htotn
            exact Option.noConfusion htotn
/-! ### Counterexamples -/

/-- C1 counterexample: the percentage branch is not latched at construction.
A Filter Sensor constructed over a snapshot containing its total key
("F0FilterTotal" = 40, value 10), read against a later snapshot from which
the total key has disappeared, returns the duration string "10:00:00" — not
`round(100.0 * 10 / 40, 2)` as the claim (construction-time condition)
requires. -/
theorem filter_state_construction_latched_cex :
    (PhilipsFilterSensor.make
        [(PHILIPS_DEVICE_ID, PyValue.str "XYZ"),
         ("F0FilterStatus", PyValue.int 10), ("F0FilterTotal", PyValue.int 40)]
        "devname" "AC" "active_filter" ⟨"F0", ""⟩).map
      (fun s => s.state
        [(PHILIPS_DEVICE_ID, PyValue.str "XYZ"), ("F0FilterStatus", PyValue.int 10)]) =
      Except.ok (Except.ok (PyValue.str "10:00:00")) ∧
    (Except.ok (PyValue.str "10:00:00") : Except PyErr PyValue) ≠
      Except.ok (PyValue.float (pyRound2 (100 * (10 : ℚ) / (40 : ℚ)))) :=
  ⟨rfl, fun hcontra => PyValue.noConfusion (Except.ok.inj hcontra)⟩

/-- C3 counterexample: a declared sensor identifier that is present in the
snapshot but mapped to the falsy value 0 yields no Simple Sensor at setup,
contradicting "constructs exactly when the identifier is present as a key". -/
theorem setup_simple_present_falsy_cex :
    async_setup_platform
        [(PHILIPS_DEVICE_ID, PyValue.str "XYZ"), ("pm25", PyValue.int 0)]
        "devname" "AC1234"
        [("pm25", ⟨"pm25", Option.none, Option.none, Option.none, Option.none,
          Option.none⟩)] [] =
      Except.ok [] ∧
    dictGet [(PHILIPS_DEVICE_ID, PyValue.str "XYZ"), ("pm25", PyValue.int 0)]
        "pm25" = some (PyValue.int 0) :=
  ⟨rfl, rfl⟩

/-- C6 counterexample: the attributes dict is persistent, not recomputed from
scratch. After a first read with the type key present ("F0FilterType" = "A3")
and a second read against a snapshot without the type key, the returned
attributes still contain the stale "type" entry, contradicting "contains the
type key exactly when type_key is currently present / no key from an earlier
read persists". -/
theorem filter_attrs_stale_type_cex :
    (PhilipsFilterSensor.make
        [(PHILIPS_DEVICE_ID, PyValue.str "X"), ("F0FilterStatus", PyValue.int 5),
         ("F0FilterType", PyValue.str "A3")]
        "devname" "AC" "active_filter" ⟨"F0", ""⟩).map
      (fun s =>
        (s.extraStateAttributes
            [(PHILIPS_DEVICE_ID, PyValue.str "X"), ("F0FilterStatus", PyValue.int 5),
             ("F0FilterType", PyValue.str "A3")] []).bind
          (fun a1 => s.extraStateAttributes
            [(PHILIPS_DEVICE_ID, PyValue.str "X"), ("F0FilterStatus", PyValue.int 6)]
            a1)) =
      Except.ok (Except.ok
        [(ATTR_TYPE, PyValue.str "A3"), (ATTR_RAW, PyValue.int 6)]) ∧
    dictGet [(PHILIPS_DEVICE_ID, PyValue.str "X"), ("F0FilterStatus", PyValue.int 6)]
        "F0FilterType" = Option.none :=
  ⟨rfl, rfl⟩

/-! ### Witnesses -/

/-- Witness for C1 (amended): value 10, total 40 in the live snapshot give a
state of 25.0 percent. -/
theorem filter_state_percentage_live_witness :
    PhilipsFilterSensor.state
      ⟨"AC", "active_filter", "F0FilterStatus", "F0FilterTotal", "F0FilterType",
        some PERCENTAGE, "AC-XYZ-active_filter"⟩
      [(PHILIPS_DEVICE_ID, PyValue.str "XYZ"), ("F0FilterStatus", PyValue.int 10),
       ("F0FilterTotal", PyValue.int 40)] =
    Except.ok (PyValue.float 25) := by
  have h := filter_state_percentage_live
    [(PHILIPS_DEVICE_ID, PyValue.str "XYZ"), ("F0FilterStatus", PyValue.int 10),
     ("F0FilterTotal", PyValue.int 40)]
    [(PHILIPS_DEVICE_ID, PyValue.str "XYZ"), ("F0FilterStatus", PyValue.int 10),
     ("F0FilterTotal", PyValue.int 40)]
    "devname" "AC" "active_filter" ⟨"F0", ""⟩
    ⟨"AC", "active_filter", "F0FilterStatus", "F0FilterTotal", "F0FilterType",
      some PERCENTAGE, "AC-XYZ-active_filter"⟩
    10 40 rfl rfl rfl (by decide)
  rw [h]
  norm_num [pyRound2, roundHalfEven]

/-- Witness for C3 (amended): with "pm25" absent from the snapshot, setup
yields no entity and the characterization instantiates. -/
theorem setup_simple_iff_truthy_witness :
    constructsSimpleFor [] "pm25" = true ↔
      (∃ d, ("pm25", d) ∈ ([("pm25", (⟨"pm25", Option.none, Option.none,
        Option.none, Option.none, Option.none⟩ : SensorDescription))])) ∧
      pyTruthy (dictGet [(PHILIPS_DEVICE_ID, PyValue.str "XYZ")] "pm25") = true :=
  setup_simple_iff_truthy [(PHILIPS_DEVICE_ID, PyValue.str "XYZ")]
    "devname" "AC1234"
    [("pm25", ⟨"pm25", Option.none, Option.none, Option.none, Option.none,
      Option.none⟩)] [] [] "pm25" rfl

/-- Witness for C4: with the derived value key absent, setup yields no entity
and the characterization instantiates. -/
theorem setup_filter_iff_value_key_witness :
    (constructsFilterFor [] "pre_filter" = true ↔
      ∃ d, ("pre_filter", d) ∈ ([("pre_filter", (⟨"F0", ""⟩ : FilterDescription))]) ∧
        PhilipsFilterSensor.is_supported [(PHILIPS_DEVICE_ID, PyValue.str "X")] d = true) ∧
    (∀ d : FilterDescription,
      PhilipsFilterSensor.is_supported [(PHILIPS_DEVICE_ID, PyValue.str "X")] d =
        (dictGet [(PHILIPS_DEVICE_ID, PyValue.str "X")]
          (d.pre ++ PHILIPS_FILTER_STATUS ++ d.post)).isSome) :=
  setup_filter_iff_value_key [(PHILIPS_DEVICE_ID, PyValue.str "X")]
    "devname" "AC1234" []
    [("pre_filter", ⟨"F0", ""⟩)] [] "pre_filter" rfl

/-- Witness for C5: constructing either sensor over the empty snapshot fails
with the not-ready signal. -/
theorem make_missing_device_id_not_ready_witness :
    PhilipsSensor.make [] "devname" "AC" "pm25"
        ⟨"pm25", Option.none, Option.none, Option.none, Option.none, Option.none⟩ =
      Except.error SetupErr.platformNotReady ∧
    PhilipsFilterSensor.make [] "devname" "AC" "pre_filter" ⟨"F0", ""⟩ =
      Except.error SetupErr.platformNotReady :=
  make_missing_device_id_not_ready [] "devname" "AC" "pm25" "pre_filter"
    ⟨"pm25", Option.none, Option.none, Option.none, Option.none, Option.none⟩
    ⟨"F0", ""⟩ rfl

/-- Witness for C6 (amended): a first-read over a snapshot with value 5 and
filter type "A3" produces exactly the updated attributes dict. -/
theorem filter_attrs_update_witness :
    (∃ v, dictGet [("F0FilterStatus", PyValue.int 5), ("F0FilterType", PyValue.str "A3")]
        "F0FilterStatus" = some v ∧
      dictGet [(ATTR_TYPE, PyValue.str "A3"), (ATTR_RAW, PyValue.int 5)] ATTR_RAW =
        some v) ∧
    (∀ tv, dictGet [("F0FilterStatus", PyValue.int 5), ("F0FilterType", PyValue.str "A3")]
        "F0FilterType" = some tv →
      dictGet [(ATTR_TYPE, PyValue.str "A3"), (ATTR_RAW, PyValue.int 5)] ATTR_TYPE =
        some tv) ∧
    (dictGet [("F0FilterStatus", PyValue.int 5), ("F0FilterType", PyValue.str "A3")]
        "F0FilterType" = Option.none →
      dictGet [(ATTR_TYPE, PyValue.str "A3"), (ATTR_RAW, PyValue.int 5)] ATTR_TYPE =
        dictGet [] ATTR_TYPE) ∧
    (∀ t v, dictGet [("F0FilterStatus", PyValue.int 5), ("F0FilterType", PyValue.str "A3")]
        "F0FilterTotal" = some t →
      dictGet [("F0FilterStatus", PyValue.int 5), ("F0FilterType", PyValue.str "A3")]
        "F0FilterStatus" = some (PyValue.int v) →
      dictGet [(ATTR_TYPE, PyValue.str "A3"), (ATTR_RAW, PyValue.int 5)] ATTR_TOTAL =
        some t ∧
      dictGet [(ATTR_TYPE, PyValue.str "A3"), (ATTR_RAW, PyValue.int 5)]
        ATTR_TIME_REMAINING = some (PyValue.str (timedeltaStrHours v))) ∧
    (dictGet [("F0FilterStatus", PyValue.int 5), ("F0FilterType", PyValue.str "A3")]
        "F0FilterTotal" = Option.none →
      dictGet [(ATTR_TYPE, PyValue.str "A3"), (ATTR_RAW, PyValue.int 5)] ATTR_TOTAL =
        dictGet [] ATTR_TOTAL ∧
      dictGet [(ATTR_TYPE, PyValue.str "A3"), (ATTR_RAW, PyValue.int 5)]
        ATTR_TIME_REMAINING = dictGet [] ATTR_TIME_REMAINING) :=
  filter_attrs_update
    ⟨"AC", "active_filter", "F0FilterStatus", "F0FilterTotal", "F0FilterType",
      Option.none, "AC-X-active_filter"⟩
    [("F0FilterStatus", PyValue.int 5), ("F0FilterType", PyValue.str "A3")]
    [] [(ATTR_TYPE, PyValue.str "A3"), (ATTR_RAW, PyValue.int 5)] rfl

/-- Witness for C7: value 48 with no total key reads as "2 days, 0:00:00". -/
theorem filter_state_duration_witness :
    PhilipsFilterSensor.state
      ⟨"AC", "pre_filter", "F0FilterStatus", "F0FilterTotal", "F0FilterType",
        Option.none, "AC-XYZ-pre_filter"⟩
      [(PHILIPS_DEVICE_ID, PyValue.str "XYZ"), ("F0FilterStatus", PyValue.int 48)] =
    Except.ok (PyValue.str "2 days, 0:00:00") := by
  have h := filter_state_duration
    [(PHILIPS_DEVICE_ID, PyValue.str "XYZ"), ("F0FilterStatus", PyValue.int 48)]
    [(PHILIPS_DEVICE_ID, PyValue.str "XYZ"), ("F0FilterStatus", PyValue.int 48)]
    "devname" "AC" "pre_filter" ⟨"F0", ""⟩
    ⟨"AC", "pre_filter", "F0FilterStatus", "F0FilterTotal", "F0FilterType",
      Option.none, "AC-XYZ-pre_filter"⟩
    48 rfl rfl rfl
  rw [h]
  rfl

/-- Witness for C8: a definition with a conversion function returns the
converted value for the fetched raw value. -/
theorem sensor_state_conversion_witness :
    PhilipsSensor.state
      ⟨"AC", "pm25", ⟨"pm25", Option.none, Option.none, Option.none, Option.none,
        some (fun _ _ => PyValue.int 7)⟩,
        "AC" ++ "-" ++ pyStr (PyValue.str "XYZ") ++ "-" ++ pyLower "pm25"⟩
      [(PHILIPS_DEVICE_ID, PyValue.str "XYZ"), ("pm25", PyValue.int 3)] =
    Except.ok (PyValue.int 7) :=
  sensor_state_conversion
    [(PHILIPS_DEVICE_ID, PyValue.str "XYZ"), ("pm25", PyValue.int 3)]
    [(PHILIPS_DEVICE_ID, PyValue.str "XYZ"), ("pm25", PyValue.int 3)]
    "devname" "AC" "pm25"
    ⟨"pm25", Option.none, Option.none, Option.none, Option.none,
      some (fun _ _ => PyValue.int 7)⟩
    ⟨"AC", "pm25", ⟨"pm25", Option.none, Option.none, Option.none, Option.none,
      some (fun _ _ => PyValue.int 7)⟩,
      "AC" ++ "-" ++ pyStr (PyValue.str "XYZ") ++ "-" ++ pyLower "pm25"⟩
    (PyValue.int 3) rfl rfl

/-- Witness for C9: model "AC1234", device id "XYZ", sensor "pm25" give
unique id "AC1234-XYZ-pm25"; filter kind "pre_filter" is not lowercased. -/
theorem unique_id_derivation_witness :
    PhilipsSensor.unique_id
        ⟨"AC1234", "pm25", ⟨"pm25", Option.none, Option.none, Option.none,
          Option.none, Option.none⟩,
          "AC1234" ++ "-" ++ pyStr (PyValue.str "XYZ") ++ "-" ++ pyLower "pm25"⟩ =
      "AC1234-XYZ-pm25" ∧
    PhilipsFilterSensor.unique_id
        ⟨"AC1234", "pre_filter", "F0FilterStatus", "F0FilterTotal",
          "F0FilterType", Option.none,
          "AC1234" ++ "-" ++ pyStr (PyValue.str "XYZ") ++ "-" ++ "pre_filter"⟩ =
      "AC1234-XYZ-pre_filter" := by
  have h := unique_id_derivation [(PHILIPS_DEVICE_ID, PyValue.str "XYZ")]
    "devname" "AC1234" "pm25" "pre_filter"
    ⟨"pm25", Option.none, Option.none, Option.none, Option.none, Option.none⟩
    ⟨"F0", ""⟩
    ⟨"AC1234", "pm25", ⟨"pm25", Option.none, Option.none, Option.none,
      Option.none, Option.none⟩,
      "AC1234" ++ "-" ++ pyStr (PyValue.str "XYZ") ++ "-" ++ pyLower "pm25"⟩
    ⟨"AC1234", "pre_filter", "F0FilterStatus", "F0FilterTotal", "F0FilterType",
      Option.none,
      "AC1234" ++ "-" ++ pyStr (PyValue.str "XYZ") ++ "-" ++ "pre_filter"⟩
    (PyValue.str "XYZ") rfl rfl rfl
  exact ⟨h.1.trans (by decide), h.2.trans (by decide)⟩

/-- Witness for C10: a Filter Sensor constructed with the total key present
keeps the percentage unit, yet a later read without the total key returns a
duration string. -/
theorem filter_branch_live_unit_latched_witness :
    PhilipsFilterSensor.unit_of_measurement
        ⟨"AC", "active_filter", "F0FilterStatus", "F0FilterTotal", "F0FilterType",
          some PERCENTAGE, "AC-X-active_filter"⟩ = some PERCENTAGE ∧
    PhilipsFilterSensor.state
        ⟨"AC", "active_filter", "F0FilterStatus", "F0FilterTotal", "F0FilterType",
          some PERCENTAGE, "AC-X-active_filter"⟩
        [(PHILIPS_DEVICE_ID, PyValue.str "X"), ("F0FilterStatus", PyValue.int 24)] =
      Except.ok (PyValue.str "1 day, 0:00:00") := by
  have h := filter_branch_live_unit_latched
    [(PHILIPS_DEVICE_ID, PyValue.str "X"), ("F0FilterStatus", PyValue.int 10),
     ("F0FilterTotal", PyValue.int 40)]
    [(PHILIPS_DEVICE_ID, PyValue.str "X"), ("F0FilterStatus", PyValue.int 24)]
    "devname" "AC" "active_filter" ⟨"F0", ""⟩
    ⟨"AC", "active_filter", "F0FilterStatus", "F0FilterTotal", "F0FilterType",
      some PERCENTAGE, "AC-X-active_filter"⟩
    rfl
  exact ⟨h.1, h.2.1 24 rfl rfl⟩
end PhilipsAirPurifier
